import Mathlib

/-!
Verification of the event-to-table loading pipeline of the
snowpark-widf-lambda-loader demo (src/app.py).

The Python code is shallowly embedded:
* JSON-compatible Python values become the inductive `PyVal`;
* `dict.get`, iteration and truthiness are modelled with their Python
  semantics, returning `Except PyErr _` where Python would raise
  `AttributeError` / `TypeError`;
* `json.loads` is an external stdlib function and is modelled as an
  opaque-to-us parameter `parse : String -> Option PyVal` (`Option.none`
  models a raised `json.JSONDecodeError`), likewise `json.dumps` as a
  `dumps : PyVal -> String` parameter;
* the Snowflake session is modelled as a warehouse state (`WHState`)
  holding the destination table `RAW_DATA` and the staging table
  `RAW_DATA_STAGING`, each SQL/bulk-write operation being atomic
  (it either fully succeeds or fails leaving the state unchanged),
  with failure injection via `LoadBeh`;
* boto3's `get_object` + UTF-8 decode is an oracle
  `fetch : PyVal -> String -> Except String String`.
-/

/-- JSON-compatible Python runtime values (the payloads this pipeline
handles: `None`, booleans, integers, strings, lists, string-keyed dicts). -/
inductive PyVal where
  | none
  | bool (b : Bool)
  | int (n : Int)
  | str (s : String)
  | list (xs : List PyVal)
  | dict (kvs : List (String × PyVal))

/-- Python errors raised by the embedded fragments. -/
inductive PyErr where
  | attributeError
  | typeError
deriving DecidableEq

/-- First-match lookup in a dict's key-value list (concrete Python dicts
have unique keys, so this is `dict.__getitem__`). -/
def lookupStr : List (String × PyVal) → String → Option PyVal
  | [], _ => Option.none
  | (k, v) :: rest, key => if k == key then some v else lookupStr rest key

/-- Python `v.get(key, dflt)`: works on dicts, raises `AttributeError`
on anything else. -/
def pyGetD (v : PyVal) (key : String) (dflt : PyVal) : Except PyErr PyVal :=
  match v with
  | .dict kvs => .ok ((lookupStr kvs key).getD dflt)
  | _ => .error .attributeError

/-- Total variant of `dict.get` used by the spec-side description:
non-dicts just yield the default. -/
def dGet (v : PyVal) (key : String) (dflt : PyVal) : PyVal :=
  match v with
  | .dict kvs => (lookupStr kvs key).getD dflt
  | _ => dflt

/-- Python iteration `for x in v`: lists yield elements, strings yield
one-character strings, dicts yield their keys; other values raise
`TypeError`. -/
def pyIter : PyVal → Except PyErr (List PyVal)
  | .list xs => .ok xs
  | .str s => .ok (s.data.map (fun c => .str (String.singleton c)))
  | .dict kvs => .ok (kvs.map (fun kv => .str kv.1))
  | _ => .error .typeError

/-- Python truthiness of a JSON-compatible value. -/
def pyTruthy : PyVal → Bool
  | .none => false
  | .bool b => b
  | .int n => n != 0
  | .str s => s != ""
  | .list xs => !xs.isEmpty
  | .dict kvs => !kvs.isEmpty

/-- Python `v == "aws:s3"` for a JSON-compatible `v`: true exactly for
the equal string. -/
def isAwsS3 : PyVal → Bool
  | .str s => s == "aws:s3"
  | _ => false

/-- Python `str(v)` as used in the `f"s3://{bucket}/{key}"` label.  For
the scalar values that actually occur the rendering is exact; composite
values get an abbreviated rendering (no claim depends on it). -/
def pyStr : PyVal → String
  | .none => "None"
  | .bool true => "True"
  | .bool false => "False"
  | .int n => toString n
  | .str s => s
  | .list _ => "[...]"
  | .dict _ => "..."

/-- Hex digit value, as used by percent-decoding. -/
def hexVal (c : Char) : Option Nat :=
  if '0' ≤ c ∧ c ≤ '9' then some (c.toNat - '0'.toNat)
  else if 'a' ≤ c ∧ c ≤ 'f' then some (c.toNat - 'a'.toNat + 10)
  else if 'A' ≤ c ∧ c ≤ 'F' then some (c.toNat - 'A'.toNat + 10)
  else Option.none

/-- Character-list core of `urllib.parse.unquote_plus`: `+` becomes a
space, `%XX` with two hex digits becomes the character with that code,
invalid escapes are left as-is.  (Python additionally UTF-8-decodes
multi-byte escape runs; this model is exact for single-byte escapes,
which is all the claims use.) -/
def unquotePlusChars : List Char → List Char
  | [] => []
  | '+' :: rest => ' ' :: unquotePlusChars rest
  | '%' :: a :: b :: rest =>
    match hexVal a, hexVal b with
    | some x, some y => Char.ofNat (16 * x + y) :: unquotePlusChars rest
    | _, _ => '%' :: unquotePlusChars (a :: b :: rest)
  | c :: rest => c :: unquotePlusChars rest

/-- `urllib.parse.unquote_plus` on strings. -/
def unquotePlus (s : String) : String := ⟨unquotePlusChars s.data⟩

/-- The `S3ObjectInfo` TypedDict of src/app.py.  The bucket is kept as a
`PyVal` because `parse_s3_event` never forces it to be a string (it only
tests its truthiness); the key is a string because `unquote_plus` has
already been applied to it. -/
structure S3ObjectInfo where
  bucket : PyVal
  key : String

/-- Body of the `for record in event.get("Records", [])` loop of
`parse_s3_event`: returns `some info` when the record is appended,
`Option.none` when it is skipped, and a Python error where the source
would raise one (e.g. `.get` on a non-dict). -/
def extractRecord? (record : PyVal) : Except PyErr (Option S3ObjectInfo) :=
  match pyGetD record "eventSource" .none with
  | .error e => .error e
  | .ok es =>
    if isAwsS3 es then
      match pyGetD record "s3" (.dict []) with
      | .error e => .error e
      | .ok s3 =>
        match pyGetD s3 "bucket" (.dict []) with
        | .error e => .error e
        | .ok bucketv =>
          match pyGetD bucketv "name" .none with
          | .error e => .error e
          | .ok bucket =>
            match pyGetD s3 "object" (.dict []) with
            | .error e => .error e
            | .ok objv =>
              match pyGetD objv "key" (.str "") with
              | .error e => .error e
              | .ok (.str s) =>
                if pyTruthy bucket && (unquotePlus s != "") then
                  .ok (some ⟨bucket, unquotePlus s⟩)
                else
                  .ok Option.none
              | .ok _ => .error .attributeError
    else
      .ok Option.none

/-- The loop of `parse_s3_event`, accumulating appended records in
order; an error in any iteration propagates (the loop has no handler). -/
def parseRecords : List PyVal → Except PyErr (List S3ObjectInfo)
  | [] => .ok []
  | r :: rs =>
    match extractRecord? r with
    | .error e => .error e
    | .ok (some info) =>
      match parseRecords rs with
      | .error e => .error e
      | .ok rest => .ok (info :: rest)
    | .ok Option.none => parseRecords rs

/-- `parse_s3_event` of src/app.py (lines 81-97). -/
def parseS3Event (event : PyVal) : Except PyErr (List S3ObjectInfo) :=
  match pyGetD event "Records" (.list []) with
  | .error e => .error e
  | .ok recsv =>
    match pyIter recsv with
    | .error e => .error e
    | .ok items => parseRecords items

/-- ASCII whitespace, as stripped by Python `str.strip()` (Python also
strips some Unicode whitespace; the model covers the ASCII set that
occurs in JSON payloads). -/
def isSpaceChar (c : Char) : Bool :=
  c == ' ' || c == '\t' || c == '\n' || c == '\r' || c == '\x0b' || c == '\x0c'

/-- Python `str.strip()`: drop leading and trailing whitespace. -/
def pyStrip (s : String) : String :=
  ⟨((s.data.dropWhile isSpaceChar).reverse.dropWhile isSpaceChar).reverse⟩

/-- Python `str.split("\n")` on the character list: always at least one
group; a separator at either end yields an empty group there. -/
def splitNl : List Char → List (List Char)
  | [] => [[]]
  | c :: rest =>
    let r := splitNl rest
    if c == '\n' then [] :: r
    else
      match r with
      | [] => [[c]]
      | g :: gs => (c :: g) :: gs

/-- The non-blank lines of a file, as computed by the fallback branch of
`read_json_from_s3`: `content.strip().split("\n")` filtered by
`line.strip()` being non-empty (the kept lines themselves are not
stripped). -/
def nonBlankLines (content : String) : List String :=
  ((splitNl (pyStrip content).data).map (fun cs => String.mk cs)).filter
    (fun l => pyStrip l != "")

/-- `return data if isinstance(data, list) else [data]` (src/app.py
line 111). -/
def asRecordList : PyVal → List PyVal
  | .list xs => xs
  | v => [v]

/-- The fallback list comprehension of src/app.py lines 113-115: parse
each line in order; the first `json.JSONDecodeError` aborts the whole
comprehension (it is raised inside the `except` handler and is not
caught, so no partial list is ever produced). -/
def parseLines (parse : String → Option PyVal) : List String → Except String (List PyVal)
  | [] => .ok []
  | l :: ls =>
    match parse l with
    | Option.none => .error "DecodeError"
    | some v => (parseLines parse ls).map (fun vs => v :: vs)

/-- The decode step of `read_json_from_s3` (src/app.py lines 108-115):
first try the whole text as one JSON document; only if that raises,
parse each non-blank line independently. -/
def decodeRecords (parse : String → Option PyVal) (content : String) :
    Except String (List PyVal) :=
  match parse content with
  | some v => .ok (asRecordList v)
  | Option.none => parseLines parse (nonBlankLines content)

/-- `read_json_from_s3` of src/app.py (lines 100-115): fetch the object
text (boto3 get + UTF-8 decode, modelled by the `fetch` oracle), then
decode it. -/
def read_json_from_s3 (fetch : PyVal → String → Except String String)
    (parse : String → Option PyVal) (bucket : PyVal) (key : String) :
    Except String (List PyVal) :=
  (fetch bucket key).bind (decodeRecords parse)

/-- State of the warehouse: the destination table `RAW_DATA` and the
staging table `RAW_DATA_STAGING`.  `Option.none` means the table does
not exist; a row is a `(source_file, payload-JSON-string)` pair (the
other three destination columns are defaulted by the warehouse and
carry no information this model needs). -/
structure WHState where
  rawData : Option (List (String × String))
  staging : Option (List (String × String))

/-- The warehouse with neither table present. -/
def WHState.empty : WHState := ⟨Option.none, Option.none⟩

/-- Number of rows committed to the destination table. -/
def WHState.rawCount (st : WHState) : Nat := (st.rawData.getD []).length

/-- Failure injection for the four warehouse operations issued by one
`load_to_snowflake` call; an injected failure makes that statement
raise without changing the warehouse state (statements are atomic). -/
structure LoadBeh where
  failCreate : Bool
  failWrite : Bool
  failInsert : Bool
  failDrop : Bool

/-- The four warehouse operations of `load_to_snowflake`, in source
order. -/
inductive Op where
  | createTable
  | writePandas
  | insertSelect
  | dropStaging
deriving DecidableEq

/-- Outcome of one `load_to_snowflake` call: the returned count or the
raised error, the warehouse state after the call, and the operations
attempted (in order, including the failing one). -/
structure LoadOut where
  res : Except String Nat
  st : WHState
  ops : List Op

/-- `load_to_snowflake` of src/app.py (lines 118-166).
1. `CREATE TABLE IF NOT EXISTS RAW_DATA` — creates the destination
   empty if absent, no-op otherwise;
2. build the pandas frame: one row per record, `SOURCE_FILE` always the
   source label, `PAYLOAD` the record serialized by `json.dumps`;
3. `write_pandas(..., table_name="RAW_DATA_STAGING",
   auto_create_table=True, overwrite=True)` — replaces the staging
   table's contents with the frame;
4. `INSERT INTO RAW_DATA ... SELECT ... FROM RAW_DATA_STAGING` —
   appends every staging row to the destination (`PARSE_JSON` stores
   the payload opaquely, so the row payload is kept as its string);
5. `DROP TABLE IF EXISTS RAW_DATA_STAGING`.
The function is straight-line: a raise at any step exits immediately,
so later steps are not attempted.  On success it returns
`len(records)`. -/
def load_to_snowflake (beh : LoadBeh) (dumps : PyVal → String)
    (st : WHState) (records : List PyVal) (sourceFile : String) : LoadOut :=
  if beh.failCreate then
    ⟨.error "LoadError: create table", st, [.createTable]⟩
  else
    let st1 : WHState := { st with rawData := some (st.rawData.getD []) }
    let df : List (String × String) := records.map (fun r => (sourceFile, dumps r))
    if beh.failWrite then
      ⟨.error "LoadError: write_pandas", st1, [.createTable, .writePandas]⟩
    else
      let st2 : WHState := { st1 with staging := some df }
      if beh.failInsert then
        ⟨.error "LoadError: insert", st2,
          [.createTable, .writePandas, .insertSelect]⟩
      else
        let st3 : WHState :=
          { st2 with rawData := some (st2.rawData.getD [] ++ st2.staging.getD []) }
        if beh.failDrop then
          ⟨.error "LoadError: drop staging", st3,
            [.createTable, .writePandas, .insertSelect, .dropStaging]⟩
        else
          ⟨.ok records.length, { st3 with staging := Option.none },
            [.createTable, .writePandas, .insertSelect, .dropStaging]⟩

/-- The `FileResult` TypedDict of src/app.py (total=False: the optional
fields are `Option`s; success results carry `records` and no `error`,
failed results carry `error` and no `records`). -/
structure FileResult where
  file : String
  records : Option Nat
  status : String
  error : Option String

/-- The dict passed to `json.dumps` to build the response body.
`message` is the `{"message": ...}` early-exit body, `summary` the
success body (keys `message`, `authenticated_as`, `total_records`,
`files`), `failure msg` the `{"error": msg}` body of a 500 response. -/
inductive Body where
  | message (msg : String)
  | summary (message : String) (authenticatedAs : String)
      (totalRecords : Nat) (files : List FileResult)
  | failure (errorMsg : String)

/-- The FileResults contained in a response body (the `files` key);
`message` and `failure` bodies have none. -/
def Body.filesOf : Body → List FileResult
  | .summary _ _ _ fs => fs
  | _ => []

/-- The `LambdaResponse` TypedDict of src/app.py, with the JSON-encoded
body kept structured. -/
structure LambdaResponse where
  statusCode : Nat
  body : Body

/-- External collaborators and failure injection for one invocation of
`lambda_handler`:
* `acquire` — outcome of `get_snowpark_session()` (the Workload
  Identity Federation handshake is entirely inside the vendor SDK);
* `verifyUser` / `verifyRole` — outcomes of the two verification
  queries `SELECT CURRENT_USER()` / `SELECT CURRENT_ROLE()`;
* `fetch` — boto3 `get_object` plus strict UTF-8 decode;
* `parse` / `dumps` — `json.loads` / `json.dumps`;
* `loadBeh` — warehouse failure injection for the i-th per-object
  load call. -/
structure HandlerEnv where
  acquire : Except String Unit
  verifyUser : Except String String
  verifyRole : Except String String
  fetch : PyVal → String → Except String String
  parse : String → Option PyVal
  dumps : PyVal → String
  loadBeh : Nat → LoadBeh

/-- Outcome of the per-object loop of `lambda_handler` (lines 206-222):
the accumulated FileResults in order, the final `total_records`, and
the warehouse state after all loads. -/
structure LoopOut where
  results : List FileResult
  total : Nat
  st : WHState

/-- The per-object loop of `lambda_handler`: for each S3 object run
read_json_from_s3 then load_to_snowflake; any exception is caught at
object granularity, recorded as a failed FileResult, and the loop
continues with the next object.  The warehouse state is threaded
sequentially (a failed load keeps whatever mutations it made before
failing). -/
def processObjects (env : HandlerEnv) :
    List S3ObjectInfo → Nat → WHState → LoopOut
  | [], _, st => ⟨[], 0, st⟩
  | obj :: rest, i, st =>
    let source := "s3://" ++ pyStr obj.bucket ++ "/" ++ obj.key
    match read_json_from_s3 env.fetch env.parse obj.bucket obj.key with
    | .error e =>
      let r := processObjects env rest (i + 1) st
      ⟨⟨obj.key, Option.none, "failed", some e⟩ :: r.results, r.total, r.st⟩
    | .ok records =>
      let out := load_to_snowflake (env.loadBeh i) env.dumps st records source
      match out.res with
      | .ok n =>
        let r := processObjects env rest (i + 1) out.st
        ⟨⟨obj.key, some n, "success", Option.none⟩ :: r.results,
          n + r.total, r.st⟩
      | .error e =>
        let r := processObjects env rest (i + 1) out.st
        ⟨⟨obj.key, Option.none, "failed", some e⟩ :: r.results, r.total, r.st⟩

/-- Session bookkeeping of one invocation: how many times
`get_snowpark_session()` was called and how many times
`session.close()` ran. -/
structure HTrace where
  acquireAttempts : Nat
  closes : Nat

/-- Outcome of one `lambda_handler` invocation: either the returned
`LambdaResponse` or the Python error that propagated out of the
handler, plus the final warehouse state and the session trace. -/
structure HandlerOut where
  res : Except PyErr LambdaResponse
  st : WHState
  trace : HTrace

/-- `lambda_handler` of src/app.py (lines 169-242).
* `parse_s3_event` runs before the `try` block: an exception it raises
  propagates out of the handler (no response, no session, no close);
* an empty object list returns the 200 "No files to process" response
  before any session work;
* otherwise the `try` block acquires the session (`session` stays
  `None` on failure), runs the two verification queries, then the
  per-object loop (whose own `try/except` never lets an exception
  escape), and returns the 200 summary; any exception in the block is
  caught and turned into the 500 `{"error": str(e)}` response;
* the `finally` block closes the session exactly when `session` is not
  `None`, i.e. when acquisition completed. -/
def lambda_handler (env : HandlerEnv) (st0 : WHState) (event : PyVal) :
    HandlerOut :=
  match parseS3Event event with
  | .error e => ⟨.error e, st0, ⟨0, 0⟩⟩
  | .ok [] => ⟨.ok ⟨200, .message "No files to process"⟩, st0, ⟨0, 0⟩⟩
  | .ok (obj :: objs) =>
    match env.acquire with
    | .error e => ⟨.ok ⟨500, .failure e⟩, st0, ⟨1, 0⟩⟩
    | .ok () =>
      match env.verifyUser with
      | .error e => ⟨.ok ⟨500, .failure e⟩, st0, ⟨1, 1⟩⟩
      | .ok user =>
        match env.verifyRole with
        | .error e => ⟨.ok ⟨500, .failure e⟩, st0, ⟨1, 1⟩⟩
        | .ok _ =>
          let r := processObjects env (obj :: objs) 0 st0
          ⟨.ok ⟨200, .summary "Data loaded via WIDF (keyless!)" user
              r.total r.results⟩, r.st, ⟨1, 1⟩⟩

/-- Whether one operation result is a success. -/
def exceptOk : Except ε α → Bool
  | .ok _ => true
  | .error _ => false

/-- Session acquisition completes exactly when the event parses to a
non-empty object list and `get_snowpark_session()` succeeds. -/
def sessionAcquired (env : HandlerEnv) (event : PyVal) : Bool :=
  match parseS3Event event with
  | .ok (_ :: _) => exceptOk env.acquire
  | _ => false

/-- Whether a value is a Python dict. -/
def isDict : PyVal → Bool
  | .dict _ => true
  | _ => false

/-- Whether a value is a Python str. -/
def isStr : PyVal → Bool
  | .str _ => true
  | _ => false

/-- Whether a value is a Python list (`isinstance(data, list)`). -/
def PyVal.isList : PyVal → Bool
  | .list _ => true
  | _ => false

/-- A notification record is well-shaped when it is a mapping and — if
its origin is the object-storage service, so that the extraction path
is actually taken — its `s3`, `s3.bucket` and `s3.object` values are
mappings where consulted and its object key is a string. -/
def wfRecord (r : PyVal) : Bool :=
  isDict r &&
  (!isAwsS3 (dGet r "eventSource" .none) ||
    (isDict (dGet r "s3" (.dict [])) &&
     isDict (dGet (dGet r "s3" (.dict [])) "bucket" (.dict [])) &&
     isDict (dGet (dGet r "s3" (.dict [])) "object" (.dict [])) &&
     isStr (dGet (dGet (dGet r "s3" (.dict [])) "object" (.dict []))
        "key" (.str ""))))

/-- An event is well-shaped when it is a mapping whose `Records` value,
defaulting to the empty sequence, is a sequence of well-shaped
records. -/
def wellFormedEvent (e : PyVal) : Bool :=
  isDict e &&
  (match dGet e "Records" (.list []) with
   | .list rs => rs.all wfRecord
   | _ => false)

/-- Modelled from the spec: spec §4.1's description of the Event Parser
as a pure extraction over the event's records — drop any entry whose
origin is not the object-storage service, pull the container name and
percent-decoded object key, and drop entries missing container or key;
no error is raised.  Used as the refinement comparison for
`parseS3Event`. -/
def specExtract (r : PyVal) : Option S3ObjectInfo :=
  if isAwsS3 (dGet r "eventSource" .none) then
    let s3 := dGet r "s3" (.dict [])
    let bucket := dGet (dGet s3 "bucket" (.dict [])) "name" .none
    let key :=
      match dGet (dGet s3 "object" (.dict [])) "key" (.str "") with
      | .str s => unquotePlus s
      | _ => ""
    if pyTruthy bucket && (key != "") then some ⟨bucket, key⟩
    else Option.none
  else Option.none

/-- Modelled from the spec: the Event Parser's contract
`parse_notification(event) -> sequence of ObjectReference` of spec
§4.1, as a total function (an empty or `Records`-less event yields the
empty sequence). -/
def specParseS3Event (event : PyVal) : List S3ObjectInfo :=
  match dGet event "Records" (.list []) with
  | .list rs => rs.filterMap specExtract
  | _ => []

section DecoderTheorems

/-- If any line fails to parse, the whole per-line pass fails (the
comprehension raises on the first bad line, whichever it is). -/
theorem parseLines_error_of_mem (parse : String → Option PyVal)
    (ls : List String) (l : String) (hl : l ∈ ls)
    (h : parse l = Option.none) :
    parseLines parse ls = .error "DecodeError" := by
  induction ls with
  | nil => cases hl
  | cons x rest ih =>
    rcases List.mem_cons.mp hl with rfl | hmem
    · simp [parseLines, h]
    · cases hx : parse x with
      | none => simp [parseLines, hx]
      | some v => simp [parseLines, hx, ih hmem, Except.map]

/-- If the per-line pass succeeds, it produced exactly one value per
line, in order, each the parse of its line. -/
theorem parseLines_ok_spec (parse : String → Option PyVal)
    (ls : List String) (vs : List PyVal)
    (h : parseLines parse ls = .ok vs) :
    vs.length = ls.length ∧
      ∀ i (h1 : i < ls.length) (h2 : i < vs.length),
        parse (ls.get ⟨i, h1⟩) = some (vs.get ⟨i, h2⟩) := by
  induction ls generalizing vs with
  | nil =>
    simp [parseLines] at h
    subst h
    exact ⟨rfl, fun i h1 _ => absurd h1 (Nat.not_lt_zero i)⟩
  | cons x rest ih =>
    cases hx : parse x with
    | none => simp [parseLines, hx] at h
    | some v =>
      simp [parseLines, hx] at h
      cases hrest : parseLines parse rest with
      | error e => rw [hrest] at h; simp [Except.map] at h
      | ok ws =>
        rw [hrest] at h
        simp [Except.map] at h
        subst h
        obtain ⟨hlen, hget⟩ := ih ws hrest
        refine ⟨by simp [hlen], ?_⟩
        intro i h1 h2
        cases i with
        | zero => simpa using hx
        | succ j =>
          simp only [List.get_cons_succ]
          exact hget j (by simpa using h1) (by simpa using h2)

/-- C4: the Record Decoder first attempts to parse the entire text as
one JSON document; when this succeeds the result is determined by that
document alone — a sequence is returned as-is and any other value
(in particular a single mapping) is wrapped in a one-element sequence —
so the per-line path is never taken, regardless of how the individual
lines would parse (a single JSON array with embedded newlines never
falls through to per-line parsing). -/
theorem decode_primary_whole_document (parse : String → Option PyVal)
    (content : String) (v : PyVal) (h : parse content = some v) :
    decodeRecords parse content = .ok (asRecordList v) ∧
      (∀ xs, v = PyVal.list xs → decodeRecords parse content = .ok xs) ∧
      (∀ kvs, v = PyVal.dict kvs →
        decodeRecords parse content = .ok [PyVal.dict kvs]) := by
  refine ⟨by simp [decodeRecords, h], ?_, ?_⟩
  · intro xs hv
    subst hv
    simp [decodeRecords, h, asRecordList]
  · intro kvs hv
    subst hv
    simp [decodeRecords, h, asRecordList]

/-- C4 witness: a single JSON array containing an embedded newline is
decoded by the whole-document path into its elements, with a parser
that fails on every proper line of the text. -/
theorem decode_primary_whole_document_witness :
    decodeRecords
      (fun s => if s == "[1,\n2]" then some (.list [.int 1, .int 2])
                else Option.none)
      "[1,\n2]" = .ok [.int 1, .int 2] :=
  (decode_primary_whole_document
      (fun s => if s == "[1,\n2]" then some (.list [.int 1, .int 2])
                else Option.none)
      "[1,\n2]" (.list [.int 1, .int 2]) (by rfl)).2.1
    [.int 1, .int 2] rfl

/-- C5: when the whole text is not a valid single JSON document, the
decoder parses each non-blank line independently: it succeeds exactly
when every non-blank line parses, in which case it returns one value
per non-blank line in order; if any non-blank line fails to parse, the
whole file fails with the decode error and no partial per-line results
are reported. -/
theorem decode_fallback_per_line (parse : String → Option PyVal)
    (content : String) (h : parse content = Option.none) :
    ((∃ l ∈ nonBlankLines content, parse l = Option.none) →
        decodeRecords parse content = .error "DecodeError") ∧
      (∀ vs, decodeRecords parse content = .ok vs →
        vs.length = (nonBlankLines content).length ∧
          ∀ i (h1 : i < (nonBlankLines content).length) (h2 : i < vs.length),
            parse ((nonBlankLines content).get ⟨i, h1⟩) =
              some (vs.get ⟨i, h2⟩)) := by
  constructor
  · rintro ⟨l, hl, hpl⟩
    simp only [decodeRecords, h]
    exact parseLines_error_of_mem parse (nonBlankLines content) l hl hpl
  · intro vs hvs
    simp only [decodeRecords, h] at hvs
    exact parseLines_ok_spec parse (nonBlankLines content) vs hvs

/-- C5 witness: the file `"1\nNOT-JSON"` is not a single JSON document
for the given parser, and its second non-blank line does not parse, so
the decoder fails with the decode error (no partial results). -/
theorem decode_fallback_per_line_witness :
    decodeRecords (fun s => if s == "1" then some (.int 1) else Option.none)
      "1\nNOT-JSON" = .error "DecodeError" :=
  (decode_fallback_per_line
      (fun s => if s == "1" then some (.int 1) else Option.none)
      "1\nNOT-JSON" (by rfl)).1
    ⟨"NOT-JSON", by decide, by rfl⟩

/-- C10: a text that parses as a single JSON document whose value is
not a sequence — a mapping or any scalar (number, string, boolean,
null) — is returned as a one-element sequence containing that value,
not an error. -/
theorem decode_wraps_non_sequence (parse : String → Option PyVal)
    (content : String) (v : PyVal) (h : parse content = some v)
    (hv : v.isList = false) :
    decodeRecords parse content = .ok [v] := by
  cases v <;> simp_all [decodeRecords, asRecordList, PyVal.isList]

/-- C10 witness: the scalar document `"5"` decodes to the one-element
sequence containing the number 5. -/
theorem decode_wraps_non_sequence_witness :
    decodeRecords (fun s => if s == "5" then some (.int 5) else Option.none)
      "5" = .ok [.int 5] :=
  decode_wraps_non_sequence
    (fun s => if s == "5" then some (.int 5) else Option.none)
    "5" (.int 5) (by rfl) (by rfl)

end DecoderTheorems

section LoaderTheorems

/-- C1 counterexample: when the only failing warehouse operation is the
step-5 cleanup (dropping the staging table), the `load_to_snowflake`
call fails — yet the one record was already durably inserted into the
destination table, so the call neither succeeded nor left the
destination unchanged.  This refutes "either the call succeeds ... or
the call fails and zero rows are committed". -/
theorem load_cleanup_failure_commits_rows :
    ¬ ((∃ n, (load_to_snowflake ⟨false, false, false, true⟩ (fun _ => "x")
          WHState.empty [PyVal.none] "s3://b/k").res = .ok n) ∨
        (load_to_snowflake ⟨false, false, false, true⟩ (fun _ => "x")
          WHState.empty [PyVal.none] "s3://b/k").st.rawCount =
          WHState.empty.rawCount) := by
  rintro (⟨n, hn⟩ | hc)
  · exact absurd hn (by simp [load_to_snowflake])
  · exact absurd hc (by simp [load_to_snowflake, WHState.rawCount, WHState.empty])

/-- C1 (amended): a successful `load_to_snowflake` call returns
`len(records)` and commits exactly that many rows to the destination
table; a failed call commits zero rows — unless the failure is the
step-5 cleanup after a successful insert, in which case the call fails
with `len(records)` rows already committed. -/
theorem load_commits_all_or_nothing (beh : LoadBeh) (dumps : PyVal → String)
    (st : WHState) (records : List PyVal) (src : String) :
    (∀ n, (load_to_snowflake beh dumps st records src).res = .ok n →
        n = records.length ∧
          (load_to_snowflake beh dumps st records src).st.rawCount =
            st.rawCount + records.length) ∧
      (∀ e, (load_to_snowflake beh dumps st records src).res = .error e →
        ((beh.failCreate || beh.failWrite || beh.failInsert) = true →
            (load_to_snowflake beh dumps st records src).st.rawCount =
              st.rawCount) ∧
          ((beh.failCreate || beh.failWrite || beh.failInsert) = false →
            (load_to_snowflake beh dumps st records src).st.rawCount =
              st.rawCount + records.length)) := by
  obtain ⟨fc, fw, fi, fd⟩ := beh
  cases fc <;> cases fw <;> cases fi <;> cases fd <;>
    simp [load_to_snowflake, WHState.rawCount]

/-- C1 amended witness: with no injected failure, loading one record
into the empty warehouse returns 1 and the destination table holds one
more row than before. -/
theorem load_commits_all_or_nothing_witness :
    1 = [PyVal.none].length ∧
      (load_to_snowflake ⟨false, false, false, false⟩ (fun _ => "x")
        WHState.empty [PyVal.none] "s3://b/k").st.rawCount =
        WHState.empty.rawCount + [PyVal.none].length :=
  (load_commits_all_or_nothing ⟨false, false, false, false⟩ (fun _ => "x")
    WHState.empty [PyVal.none] "s3://b/k").1 1 (by rfl)

/-- C2 counterexample: when the step-4 insert fails, the step-5 cleanup
(dropping the staging table) is never executed — `load_to_snowflake`
is straight-line code with no try/finally, so an earlier failure skips
the drop.  This refutes "the cleanup runs even when an earlier
warehouse step has already failed". -/
theorem cleanup_skipped_after_insert_failure :
    Op.dropStaging ∉ (load_to_snowflake ⟨false, false, true, false⟩
      (fun _ => "x") WHState.empty [PyVal.none] "s3://b/k").ops := by
  decide

/-- C2 (amended): the step-5 cleanup is attempted exactly when steps
1-4 all succeeded (an earlier failure exits before it; on the path
that reaches it, it runs even though step 4 already produced durable
rows); and when the cleanup itself is the failure, the call reports an
error while the `len(records)` rows inserted by step 4 stay committed
(no rollback). -/
theorem cleanup_runs_iff_earlier_steps_succeed (beh : LoadBeh)
    (dumps : PyVal → String) (st : WHState) (records : List PyVal)
    (src : String) :
    (Op.dropStaging ∈ (load_to_snowflake beh dumps st records src).ops ↔
        (beh.failCreate = false ∧ beh.failWrite = false ∧
          beh.failInsert = false)) ∧
      (beh.failCreate = false → beh.failWrite = false →
        beh.failInsert = false → beh.failDrop = true →
          (∃ e, (load_to_snowflake beh dumps st records src).res = .error e) ∧
            (load_to_snowflake beh dumps st records src).st.rawCount =
              st.rawCount + records.length) := by
  obtain ⟨fc, fw, fi, fd⟩ := beh
  cases fc <;> cases fw <;> cases fi <;> cases fd <;>
    simp [load_to_snowflake, WHState.rawCount]

/-- C2 amended witness: with only the cleanup failing, the drop is
attempted, the call reports an error, and the one inserted row stays
committed. -/
theorem cleanup_runs_iff_earlier_steps_succeed_witness :
    Op.dropStaging ∈ (load_to_snowflake ⟨false, false, false, true⟩
        (fun _ => "x") WHState.empty [PyVal.none] "s3://b/k").ops ∧
      (load_to_snowflake ⟨false, false, false, true⟩ (fun _ => "x")
        WHState.empty [PyVal.none] "s3://b/k").st.rawCount =
        WHState.empty.rawCount + [PyVal.none].length :=
  ⟨(cleanup_runs_iff_earlier_steps_succeed ⟨false, false, false, true⟩
      (fun _ => "x") WHState.empty [PyVal.none] "s3://b/k").1.mpr
      ⟨rfl, rfl, rfl⟩,
    ((cleanup_runs_iff_earlier_steps_succeed ⟨false, false, false, true⟩
      (fun _ => "x") WHState.empty [PyVal.none] "s3://b/k").2
      rfl rfl rfl rfl).2⟩

end LoaderTheorems

section HandlerTheorems

/-- A well-shaped single-record notification event used to instantiate
the handler theorems. -/
def sampleEvent : PyVal :=
  .dict [("Records", .list [.dict [("eventSource", .str "aws:s3"),
    ("s3", .dict [("bucket", .dict [("name", .str "bkt")]),
                  ("object", .dict [("key", .str "a%2Bb.json")])])]])]

/-- A handler environment in which every collaborator succeeds except
the object fetch (sufficient to drive the handler through its loop). -/
def envAllOk : HandlerEnv :=
  ⟨.ok (), .ok "U", .ok "R", fun _ _ => .error "FetchError: no such object",
    fun _ => Option.none, fun _ => "x", fun _ => ⟨false, false, false, false⟩⟩

/-- A handler environment in which session acquisition fails. -/
def envAuthFail : HandlerEnv :=
  ⟨.error "AuthError: session acquisition failed", .ok "U", .ok "R",
    fun _ _ => .error "FetchError: no such object",
    fun _ => Option.none, fun _ => "x", fun _ => ⟨false, false, false, false⟩⟩

/-- C7: the warehouse session is acquired at most once per invocation,
and it is closed exactly once when acquisition completed (whatever exit
path follows — success, per-object failures, or a later
invocation-level failure) and zero times when acquisition never
completed (empty event, event-parse exception, or acquisition
failure). -/
theorem session_release_discipline (env : HandlerEnv) (st0 : WHState)
    (event : PyVal) :
    (lambda_handler env st0 event).trace.acquireAttempts ≤ 1 ∧
      (lambda_handler env st0 event).trace.closes =
        (if sessionAcquired env event then 1 else 0) := by
  cases hp : parseS3Event event with
  | error e => simp [lambda_handler, sessionAcquired, hp]
  | ok objs =>
    cases objs with
    | nil => simp [lambda_handler, sessionAcquired, hp]
    | cons o os =>
      cases ha : env.acquire with
      | error e => simp [lambda_handler, sessionAcquired, hp, ha, exceptOk]
      | ok u =>
        cases u
        cases hu : env.verifyUser with
        | error e => simp [lambda_handler, sessionAcquired, hp, ha, hu, exceptOk]
        | ok user =>
          cases hr : env.verifyRole with
          | error e =>
            simp [lambda_handler, sessionAcquired, hp, ha, hu, hr, exceptOk]
          | ok role =>
            simp [lambda_handler, sessionAcquired, hp, ha, hu, hr, exceptOk]

/-- C3 counterexample: for the event `{"Records": [null]}` the
AttributeError raised inside `parse_s3_event` propagates out of
`lambda_handler` — an uncaught exception escapes the orchestrator
(`parse_s3_event` runs before the try block), and no response at all
(in particular no statusCode-500 failure response) is returned. -/
theorem pre_try_exception_returns_no_response :
    (lambda_handler envAllOk WHState.empty
        (.dict [("Records", .list [.none])])).res =
      .error .attributeError ∧
      ∀ r, (lambda_handler envAllOk WHState.empty
        (.dict [("Records", .list [.none])])).res ≠ .ok r := by
  refine ⟨by rfl, ?_⟩
  intro r hr
  rw [show (lambda_handler envAllOk WHState.empty
      (.dict [("Records", .list [.none])])).res =
      Except.error PyErr.attributeError from rfl] at hr
  exact Except.noConfusion hr

/-- C3 (amended): when the event parses to a non-empty object list and
an invocation-granularity error then occurs inside the guarded block —
session acquisition fails, or one of the orchestrator's own
verification queries raises — `lambda_handler` returns a single
top-level failure response with statusCode 500 whose body is the
`{"error": ...}` object, containing zero FileResults (partial results
are discarded).  An exception raised by the event-parsing step itself,
however, propagates out of the handler without any response. -/
theorem invocation_error_yields_500 (env : HandlerEnv) (st0 : WHState)
    (event : PyVal) (obj : S3ObjectInfo) (objs : List S3ObjectInfo)
    (hp : parseS3Event event = .ok (obj :: objs))
    (hf : exceptOk env.acquire = false ∨ exceptOk env.verifyUser = false ∨
      exceptOk env.verifyRole = false) :
    ∃ m, (lambda_handler env st0 event).res = .ok ⟨500, .failure m⟩ ∧
      Body.filesOf (.failure m) = [] := by
  cases ha : env.acquire with
  | error e => exact ⟨e, by simp [lambda_handler, hp, ha], rfl⟩
  | ok u =>
    cases u
    cases hu : env.verifyUser with
    | error e => exact ⟨e, by simp [lambda_handler, hp, ha, hu], rfl⟩
    | ok user =>
      cases hr : env.verifyRole with
      | error e => exact ⟨e, by simp [lambda_handler, hp, ha, hu, hr], rfl⟩
      | ok role =>
        rw [ha, hu, hr] at hf
        rcases hf with hf | hf | hf <;> simp [exceptOk] at hf

/-- C3 amended witness: with session acquisition failing on a
well-shaped one-object event, the handler returns the 500 failure
response with no FileResults. -/
theorem invocation_error_yields_500_witness :
    ∃ m, (lambda_handler envAuthFail WHState.empty sampleEvent).res =
        .ok ⟨500, .failure m⟩ ∧ Body.filesOf (.failure m) = [] :=
  invocation_error_yields_500 envAuthFail WHState.empty sampleEvent
    ⟨.str "bkt", "a+b.json"⟩ [] (by rfl) (Or.inl (by rfl))

/-- The per-object loop yields exactly one FileResult per object, in
input order: the result list's files are the objects' keys. -/
theorem processObjects_one_result_per_object (env : HandlerEnv)
    (objs : List S3ObjectInfo) (i : Nat) (st : WHState) :
    (processObjects env objs i st).results.length = objs.length ∧
      (processObjects env objs i st).results.map (fun f => f.file) =
        objs.map (fun o => o.key) := by
  induction objs generalizing i st with
  | nil => simp [processObjects]
  | cons o os ih =>
    cases hr : read_json_from_s3 env.fetch env.parse o.bucket o.key with
    | error e =>
      simp only [processObjects, hr]
      obtain ⟨h1, h2⟩ := ih (i + 1) st
      simp [h1, h2]
    | ok records =>
      cases hl : (load_to_snowflake (env.loadBeh i) env.dumps st records
          ("s3://" ++ pyStr o.bucket ++ "/" ++ o.key)).res with
      | ok n =>
        simp only [processObjects, hr, hl]
        obtain ⟨h1, h2⟩ := ih (i + 1)
          (load_to_snowflake (env.loadBeh i) env.dumps st records
            ("s3://" ++ pyStr o.bucket ++ "/" ++ o.key)).st
        simp [h1, h2]
      | error e =>
        simp only [processObjects, hr, hl]
        obtain ⟨h1, h2⟩ := ih (i + 1)
          (load_to_snowflake (env.loadBeh i) env.dumps st records
            ("s3://" ++ pyStr o.bucket ++ "/" ++ o.key)).st
        simp [h1, h2]

/-- C8: when the invocation reaches the per-object loop (non-empty
parsed object list, session acquired, verification queries succeeded),
the objects are processed sequentially in input order — the warehouse
state is threaded from each object's load into the next — and the
returned 200 summary lists exactly one FileResult per parsed
ObjectReference, in the same order (its `files` sequence maps to the
objects' keys). -/
theorem per_object_results_in_order (env : HandlerEnv) (st0 : WHState)
    (event : PyVal) (objs : List S3ObjectInfo) (user role : String)
    (hp : parseS3Event event = .ok objs) (hne : objs ≠ [])
    (ha : env.acquire = .ok ()) (hu : env.verifyUser = .ok user)
    (hr : env.verifyRole = .ok role) :
    ∃ total files st',
      lambda_handler env st0 event =
          ⟨.ok ⟨200, .summary "Data loaded via WIDF (keyless!)" user total
            files⟩, st', ⟨1, 1⟩⟩ ∧
        files.length = objs.length ∧
        files.map (fun f => f.file) = objs.map (fun o => o.key) := by
  cases objs with
  | nil => exact absurd rfl hne
  | cons o os =>
    refine ⟨(processObjects env (o :: os) 0 st0).total,
      (processObjects env (o :: os) 0 st0).results,
      (processObjects env (o :: os) 0 st0).st, ?_,
      (processObjects_one_result_per_object env (o :: os) 0 st0).1,
      (processObjects_one_result_per_object env (o :: os) 0 st0).2⟩
    simp [lambda_handler, hp, ha, hu, hr]

/-- C8 witness: a one-object invocation in which the fetch fails still
produces exactly one FileResult, carrying that object's key. -/
theorem per_object_results_in_order_witness :
    ∃ total files st',
      lambda_handler envAllOk WHState.empty sampleEvent =
          ⟨.ok ⟨200, .summary "Data loaded via WIDF (keyless!)" "U" total
            files⟩, st', ⟨1, 1⟩⟩ ∧
        files.length = [(⟨.str "bkt", "a+b.json"⟩ : S3ObjectInfo)].length ∧
        files.map (fun f => f.file) =
          [(⟨.str "bkt", "a+b.json"⟩ : S3ObjectInfo)].map (fun o => o.key) :=
  per_object_results_in_order envAllOk WHState.empty sampleEvent
    [⟨.str "bkt", "a+b.json"⟩] "U" "R" (by rfl) (by simp) (by rfl) (by rfl)
    (by rfl)

end HandlerTheorems

section EventParserTheorems

/-- `.get` on a dict never raises and agrees with the total lookup. -/
theorem pyGetD_of_isDict (v : PyVal) (k : String) (d : PyVal)
    (h : isDict v = true) : pyGetD v k d = .ok (dGet v k d) := by
  cases v <;> simp_all [isDict, pyGetD, dGet]

/-- On a well-shaped record the loop body of `parse_s3_event` raises no
error and appends exactly what the spec's extraction rule describes. -/
theorem extractRecord_wf (r : PyVal) (h : wfRecord r = true) :
    extractRecord? r = .ok (specExtract r) := by
  rw [wfRecord, Bool.and_eq_true] at h
  obtain ⟨hd, hrest⟩ := h
  rw [extractRecord?, pyGetD_of_isDict r "eventSource" .none hd]
  cases haws : isAwsS3 (dGet r "eventSource" .none) with
  | false =>
    simp [specExtract, haws]
  | true =>
    rw [haws, Bool.or_eq_true] at hrest
    rcases hrest with hcontra | hrest
    · simp at hcontra
    · rw [Bool.and_eq_true, Bool.and_eq_true, Bool.and_eq_true] at hrest
      obtain ⟨⟨⟨hs3, hb⟩, ho⟩, hk⟩ := hrest
      cases hkv : dGet (dGet (dGet r "s3" (.dict [])) "object" (.dict []))
          "key" (.str "") with
      | str s =>
        simp only [pyGetD_of_isDict r "s3" (.dict []) hd,
          pyGetD_of_isDict _ "bucket" (.dict []) hs3,
          pyGetD_of_isDict _ "name" .none hb,
          pyGetD_of_isDict _ "object" (.dict []) hs3,
          pyGetD_of_isDict _ "key" (.str "") ho, hkv, haws, if_true]
        simp only [specExtract, haws, hkv, if_true]
        split <;> simp
      | none => rw [hkv] at hk; simp [isStr] at hk
      | bool b => rw [hkv] at hk; simp [isStr] at hk
      | int n => rw [hkv] at hk; simp [isStr] at hk
      | list xs => rw [hkv] at hk; simp [isStr] at hk
      | dict kvs => rw [hkv] at hk; simp [isStr] at hk

/-- On a sequence of well-shaped records the loop of `parse_s3_event`
raises no error and returns the spec's extraction of each kept record,
in order. -/
theorem parseRecords_wf (rs : List PyVal) (h : rs.all wfRecord = true) :
    parseRecords rs = .ok (rs.filterMap specExtract) := by
  induction rs with
  | nil => simp [parseRecords]
  | cons r rest ih =>
    rw [List.all_cons, Bool.and_eq_true] at h
    obtain ⟨h1, h2⟩ := h
    rw [parseRecords, extractRecord_wf r h1, ih h2]
    cases hspec : specExtract r with
    | none => simp [List.filterMap_cons, hspec]
    | some info => simp [List.filterMap_cons, hspec]

/-- C6 counterexample: for the malformed event `{"Records": [null]}`
(its single entry is not a mapping), `parse_s3_event` raises an
AttributeError instead of returning a sequence — refuting "for every
event value, including malformed or empty events, the Event Parser
raises no error". -/
theorem malformed_event_raises :
    parseS3Event (.dict [("Records", .list [.none])]) =
        .error .attributeError ∧
      ∀ objs, parseS3Event (.dict [("Records", .list [.none])]) ≠
        .ok objs := by
  refine ⟨by rfl, ?_⟩
  intro objs hobjs
  rw [show parseS3Event (.dict [("Records", .list [.none])]) =
      .error .attributeError from rfl] at hobjs
  exact Except.noConfusion hobjs

/-- C6 (amended): for every well-shaped event — a mapping whose
`Records` value, defaulting to the empty sequence, is a sequence of
mappings, where any entry originating from the object-storage service
has mapping-valued `s3`, `s3.bucket`, `s3.object` fields and a string
object key — `parse_s3_event` raises no error and returns exactly the
spec's extraction: entries with a different origin and entries missing
the container name or the (decoded) object key are dropped silently,
and an empty event or one without records yields the empty sequence.
(For events outside this shape the function can raise, as the
counterexample shows.) -/
theorem parse_wf_matches_spec (e : PyVal) (h : wellFormedEvent e = true) :
    parseS3Event e = .ok (specParseS3Event e) := by
  rw [wellFormedEvent, Bool.and_eq_true] at h
  obtain ⟨hd, hrec⟩ := h
  rw [parseS3Event, pyGetD_of_isDict e "Records" (.list []) hd]
  rw [specParseS3Event]
  cases hl : dGet e "Records" (.list []) with
  | list rs =>
    rw [hl] at hrec
    simp only [pyIter]
    exact parseRecords_wf rs hrec
  | none => rw [hl] at hrec; simp at hrec
  | bool b => rw [hl] at hrec; simp at hrec
  | int n => rw [hl] at hrec; simp at hrec
  | str s => rw [hl] at hrec; simp at hrec
  | dict kvs => rw [hl] at hrec; simp at hrec

/-- C6 amended witness: on a concrete well-shaped one-record event the
parser returns, without error, exactly the spec-described extraction. -/
theorem parse_wf_matches_spec_witness :
    parseS3Event sampleEvent = .ok (specParseS3Event sampleEvent) :=
  parse_wf_matches_spec sampleEvent (by rfl)

/-- C9: the Event Parser percent-decodes the object key before
returning it, with `+` encoding a space: a well-shaped record with
container `b` and encoded key `k` yields the ObjectReference
`(b, unquote_plus k)`; concretely, the encoded key `"a%2Bb.json"`
decodes to `"a+b.json"`, and a `+` in the encoded key decodes to a
space character. -/
theorem parse_percent_decodes_key (b k : String) (hb : b ≠ "")
    (hk : unquotePlus k ≠ "") :
    parseS3Event (.dict [("Records", .list [.dict
        [("eventSource", .str "aws:s3"),
         ("s3", .dict [("bucket", .dict [("name", .str b)]),
                       ("object", .dict [("key", .str k)])])]])]) =
        .ok [⟨.str b, unquotePlus k⟩] ∧
      unquotePlus "a%2Bb.json" = "a+b.json" ∧
      unquotePlus "hello+world.json" = "hello world.json" := by
  refine ⟨?_, by rfl, by rfl⟩
  simp [parseS3Event, pyGetD, pyIter, parseRecords, extractRecord?,
    lookupStr, dGet, pyTruthy, isAwsS3, bne_iff_ne, hb, hk]

/-- C9 witness: the record with encoded key `"a%2Bb.json"` in bucket
`"bkt"` parses to the ObjectReference with key `"a+b.json"`. -/
theorem parse_percent_decodes_key_witness :
    parseS3Event (.dict [("Records", .list [.dict
        [("eventSource", .str "aws:s3"),
         ("s3", .dict [("bucket", .dict [("name", .str "bkt")]),
                       ("object", .dict [("key", .str "a%2Bb.json")])])]])]) =
        .ok [⟨.str "bkt", unquotePlus "a%2Bb.json"⟩] ∧
      unquotePlus "a%2Bb.json" = "a+b.json" ∧
      unquotePlus "hello+world.json" = "hello world.json" :=
  parse_percent_decodes_key "bkt" "a%2Bb.json" (by decide) (by decide)

end EventParserTheorems
